import Mathlib

/-!
Verification development for the pynit project-indexing core
(`pynit/core/hendlers.py` and `pynit/core/methods.py`).

The Python code is shallowly embedded: pandas DataFrames become `List Row`
(rows with positional path components plus `Filename`/`Abspath`; named column
access goes through accessor functions parameterised by the dataclass index
and session mode, exactly as `ProjectMethods.update_columns` maps positions to
names), the filesystem walk becomes an explicit enumeration `List FileEntry`,
and the one heap-shared mutable object (the `self.__filters` list that a
`copy.copy`ed query view initially aliases with its parent) lives in an
explicit `Store` indexed by `filtersRef`.  All other attributes of `Project`
are only ever rebound (never mutated in place) by the source, so they are
plain record fields.
-/

namespace Pynit

/-- One row of the scan result: the path components of the directory holding
the file, relative to the project root (position 0 is the dataclass directory
name, renamed `DataClass` by `update_columns`), plus `Filename` and `Abspath`. -/
structure Row where
  cols : List String
  filename : String
  abspath : String
deriving DecidableEq, Repr

abbrev Table := List Row

/-- The six-slot filter state `self.__filters` (`[None] * 6`): subjects,
sessions, dtype-or-pipeline, step-or-result, file tags, ignore tags. -/
structure FilterVec where
  s0 : Option (List String)
  s1 : Option (List String)
  s2 : Option (List String)
  s3 : Option (List String)
  s4 : Option (List String)
  s5 : Option (List String)
deriving DecidableEq, Repr

def FilterVec.empty : FilterVec := ⟨none, none, none, none, none, none⟩

/-- Python truthiness of a slot value: `None` and `[]` are falsy
(`if self.__filters[k]:`). -/
def truthySlot : Option (List String) → Bool
  | some (_ :: _) => true
  | _ => false

/-- Python `needle in hay` on strings / pandas `str.contains` on the literal
patterns the code builds (regex metacharacters are not modelled; the claims
settled here do not depend on them). -/
def strContains (hay needle : String) : Bool :=
  decide (needle.data <:+: hay.data)

/-- pandas `Series.isin`: a missing value (NaN, here `none`) matches nothing. -/
def memIsin (v : Option String) (l : List String) : Bool :=
  match v with
  | some s => decide (s ∈ l)
  | none => false

/-- Column position of `Subject` under `ProjectMethods.update_columns`
(the program only ever uses the dataclass indices 0, 1 and 2; the setter
rejects anything else). -/
def subjectPos (idx : Nat) : Nat := if idx == 0 then 1 else 3

/-- Column position of `Session` under `ProjectMethods.update_columns`. -/
def sessionPos (idx : Nat) (single : Bool) : Nat :=
  if idx == 0 then (if single then 3 else 2) else 4

/-- Column position of `DataType` (dataclass 0 only). -/
def dtypePos (single : Bool) : Nat := if single then 2 else 3

def Row.subject (idx : Nat) (r : Row) : Option String := r.cols[subjectPos idx]?

def Row.session (idx : Nat) (single : Bool) (r : Row) : Option String :=
  r.cols[sessionPos idx single]?

def Row.dtype (single : Bool) (r : Row) : Option String := r.cols[dtypePos single]?

def Row.pipeline (r : Row) : Option String := r.cols[1]?

/-- Column 2 is named `Step` for dataclass 1 and `Result` for dataclass 2. -/
def Row.steprslt (r : Row) : Option String := r.cols[2]?

def Row.dataClassCol (r : Row) : Option String := r.cols[0]?

/-- `'&'.join(file_tag)`: multiple tags are concatenated into a single
substring pattern (the inherited behaviour flagged in the spec). -/
def joinAmp (l : List String) : String := String.intercalate "&" l

/-- Slot 0 of `applying_filters`: `if self.__filters[0]: df = df[df.Subject.isin(...)]`. -/
def afStep0 (fv : FilterVec) (dc : Nat) (df : Table) : Table :=
  if truthySlot fv.s0 then
    df.filter (fun r => memIsin (Row.subject dc r) (fv.s0.getD [])) else df

/-- Slot 1: `if self.__filters[1]: df = df[df.Session.isin(...)]`. -/
def afStep1 (fv : FilterVec) (dc : Nat) (single : Bool) (df : Table) : Table :=
  if truthySlot fv.s1 then
    df.filter (fun r => memIsin (Row.session dc single r) (fv.s1.getD [])) else df

/-- Slot 2: `DataType` for dataclass 0, `Pipeline` otherwise. -/
def afStep2 (fv : FilterVec) (dc : Nat) (single : Bool) (df : Table) : Table :=
  if truthySlot fv.s2 then
    (if dc == 0 then df.filter (fun r => memIsin (Row.dtype single r) (fv.s2.getD []))
     else df.filter (fun r => memIsin (Row.pipeline r) (fv.s2.getD []))) else df

/-- Slot 3: `Step` for dataclass 1, `Result` for dataclass 2, pass otherwise. -/
def afStep3 (fv : FilterVec) (dc : Nat) (df : Table) : Table :=
  if truthySlot fv.s3 then
    (if dc == 1 then df.filter (fun r => memIsin (Row.steprslt r) (fv.s3.getD []))
     else if dc == 2 then df.filter (fun r => memIsin (Row.steprslt r) (fv.s3.getD []))
     else df) else df

/-- Slot 4: `if self.__filters[4] is not None: df = df[df.Filename.str.contains('&'.join(...))]`. -/
def afStep4 (fv : FilterVec) (df : Table) : Table :=
  match fv.s4 with
  | some tags => df.filter (fun r => strContains r.filename (joinAmp tags))
  | none => df

/-- Slot 5: the negated containment test for the ignore tags. -/
def afStep5 (fv : FilterVec) (df : Table) : Table :=
  match fv.s5 with
  | some tags => df.filter (fun r => !strContains r.filename (joinAmp tags))
  | none => df

/-- `Project.applying_filters`: sequentially narrows the table by each
populated slot, mirroring the chain of `if` statements in the source
(`hendlers.py` lines 336-372).  Slots 0-3 use truthiness, slots 4/5 use
`is not None`; an empty table is returned unchanged. -/
def applying_filters (fv : FilterVec) (dc : Nat) (single : Bool) (df : Table) : Table :=
  if df.length ≠ 0 then
    afStep5 fv (afStep4 fv (afStep3 fv dc (afStep2 fv dc single (afStep1 fv dc single (afStep0 fv dc df)))))
  else df

/-- Per-slot row predicates: each step of the chain keeps exactly the rows
satisfying the slot's predicate (a disabled slot keeps everything). -/
def afPred0 (fv : FilterVec) (dc : Nat) (r : Row) : Bool :=
  !truthySlot fv.s0 || memIsin (Row.subject dc r) (fv.s0.getD [])

def afPred1 (fv : FilterVec) (dc : Nat) (single : Bool) (r : Row) : Bool :=
  !truthySlot fv.s1 || memIsin (Row.session dc single r) (fv.s1.getD [])

def afPred2 (fv : FilterVec) (dc : Nat) (single : Bool) (r : Row) : Bool :=
  !truthySlot fv.s2 ||
    (if dc == 0 then memIsin (Row.dtype single r) (fv.s2.getD [])
     else memIsin (Row.pipeline r) (fv.s2.getD []))

def afPred3 (fv : FilterVec) (dc : Nat) (r : Row) : Bool :=
  !truthySlot fv.s3 ||
    (if dc == 1 then memIsin (Row.steprslt r) (fv.s3.getD [])
     else if dc == 2 then memIsin (Row.steprslt r) (fv.s3.getD [])
     else true)

def afPred4 (fv : FilterVec) (r : Row) : Bool :=
  match fv.s4 with
  | some tags => strContains r.filename (joinAmp tags)
  | none => true

def afPred5 (fv : FilterVec) (r : Row) : Bool :=
  match fv.s5 with
  | some tags => !strContains r.filename (joinAmp tags)
  | none => true

/-- The row predicate equivalent to one pass of `applying_filters`; conjuncts
are listed in the nesting order produced by flattening the filter chain. -/
def afPred (fv : FilterVec) (dc : Nat) (single : Bool) (r : Row) : Bool :=
  ((((afPred5 fv r && afPred4 fv r) && afPred3 fv dc r) && afPred2 fv dc single r) &&
    afPred1 fv dc single r) && afPred0 fv dc r

/-! ## Scanner and schema resolver (`ProjectMethods.parsing`, `initial_filter`) -/

/-- One file found by `os.walk`: the components of
`os.path.relpath(dirpath, project_path)` (so position 0 is the dataclass
directory name), the filename and the absolute path.  A `Disk` holds, per
dataclass, the walk output in filesystem enumeration order. -/
structure FileEntry where
  relComps : List String
  filename : String
  abspath : String
deriving DecidableEq, Repr

structure Disk where
  raw : List FileEntry
  processing : List FileEntry
  results : List FileEntry
deriving DecidableEq, Repr

def Disk.entriesFor (d : Disk) (idx : Nat) : List FileEntry :=
  if idx == 0 then d.raw else if idx == 1 then d.processing else d.results

def entryRow (e : FileEntry) : Row := ⟨e.relComps, e.filename, e.abspath⟩

/-- Number of positional columns of the accumulated frame: appending Series of
different lengths gives the union of component positions, so `len(df.columns)`
is the maximal component count plus the `Filename` and `Abspath` columns
(an empty frame has no columns at all). -/
def maxCompLen (rows : List Row) : Nat := rows.foldr (fun r m => max r.cols.length m) 0

def numColumns (rows : List Row) : Nat := if rows.isEmpty then 0 else maxCompLen rows + 2

/-- Lexicographic comparison by code point — the string order used by
`sorted()` and `sort_values` in Python. -/
def lexLe : List Char → List Char → Bool
  | [], _ => true
  | _ :: _, [] => false
  | a :: as, b :: bs => if a < b then true else if b < a then false else lexLe as bs

def strLe (a b : String) : Bool := lexLe a.data b.data

/-- The same comparison as a (decidable) relation, for the sort API. -/
def strLeP (a b : String) : Prop := strLe a b = true

instance : DecidableRel strLeP := fun a b => inferInstanceAs (Decidable (strLe a b = true))

/-- Row order produced by `df.sort_values('Abspath')`. -/
def rowLe (a b : Row) : Prop := strLe a.abspath b.abspath = true

instance : DecidableRel rowLe := fun a b =>
  inferInstanceAs (Decidable (strLe a.abspath b.abspath = true))

def sortByAbspath (rows : List Row) : Table := List.insertionSort rowLe rows

structure ParseResult where
  df : Table
  singleSession : Bool
  emptyPrj : Bool
deriving DecidableEq, Repr

/-- `ProjectMethods.parsing` on an explicit walk enumeration: build one row per
file, infer the session mode from the column count (`is 5` for dataclass 0,
`is 6` otherwise), and report the empty-project state when the renamed frame
has no `Subject` column or no rows; otherwise sort by `Abspath`. -/
def parseEntries (entries : List FileEntry) (idx : Nat) : ParseResult :=
  let rows := entries.map entryRow
  let single := if idx == 0 then numColumns rows == 5 else numColumns rows == 6
  let hasSubject := decide (subjectPos idx < maxCompLen rows)
  if !hasSubject || rows.isEmpty then ⟨[], single, true⟩
  else ⟨sortByAbspath rows, single, false⟩

def parsing (disk : Disk) (idx : Nat) : ParseResult := parseEntries (disk.entriesFor idx) idx

/-- `ProjectMethods.initial_filter`: keep rows whose `DataClass` column is one
of the dataclass directory names (at the call site `data_class` is always the
full `ds_type` list) and whose filename matches one of the extension patterns
(`'|'.join(ext)` under `str.contains`; `ext` falsy skips the step). -/
def initial_filter (df : Table) (dsType : List String) (ext : Option (List String)) : Table :=
  let df1 := if dsType.isEmpty then df
    else df.filter (fun r => memIsin (Row.dataClassCol r) dsType)
  match ext with
  | none => df1
  | some [] => df1
  | some es => df1.filter (fun r => es.any (fun e => strContains r.filename e))

/-- Full scan of one dataclass subtree as a function of the walk enumeration:
`parsing` followed by `initial_filter` (the subsequent column reordering in
`scan_prj` only permutes the display columns and does not change row data). -/
def scanEntries (entries : List FileEntry) (idx : Nat) (dsType : List String)
    (ext : Option (List String)) : ParseResult :=
  let pr := parseEntries entries idx
  if pr.emptyPrj then pr else { pr with df := initial_filter pr.df dsType ext }

/-! ## Project state -/

/-- A Python attribute that may never have been assigned (`unset`: reading it
raises `AttributeError`), may hold `None`, or may hold a value. -/
inductive PyAttr (α : Type) where
  | unset
  | pyNone
  | val (a : α)
deriving DecidableEq, Repr

/-- Python truthiness of a derived-set attribute as used in `set_filters`
(`if self.subjects:`): `None` and `[]` are falsy.  All such reads in
`set_filters` happen after `reset_filters` has recomputed the attributes, so
the `unset` case cannot be reached there and is mapped to `false`. -/
def attrTruthy : PyAttr (List String) → Bool
  | .val (_ :: _) => true
  | _ => false

def PyAttr.getList : PyAttr (List String) → List String
  | .val l => l
  | _ => []

/-- Failure modes.  `processExit` models `SystemMethods.raiseerror`, which
raises the requested exception, catches it itself, writes the message to
stderr and calls `sys.exit()` — the process terminates instead of propagating
a catchable error.  The other constructors are exceptions that do propagate
to the caller. -/
inductive Err where
  | typeError
  | processExit (msg : String)
  | emptyProject
  | attributeError
  | keyError
  | pipelineNotSet
deriving DecidableEq, Repr

/-- The heap of `self.__filters` list objects.  `copy.copy` in `__call__`
copies the attribute dictionary, so parent and view initially share one list
(one `filtersRef`); rebinding (`self.__filters = [None] * 6`) allocates a new
cell, while item assignment and `extend` mutate the referenced cell. -/
abbrev Store := List FilterVec

def storeGet (st : Store) (r : Nat) : FilterVec := (st.getD r FilterVec.empty)

def storeSet (st : Store) (r : Nat) (f : FilterVec → FilterVec) : Store :=
  st.set r (f (storeGet st r))

/-- The mutable state of a `Project` instance.  `imgExt` and `dsType` come
from the `Reference` collaborator (`objects.py`, not part of the scanned
sources).  Modelled from the spec: the reference lookup returns the ordered
list of recognised image extensions and the three dataclass directory names,
fixed at construction.  `extDead` is the stray `_ext` attribute written by
`reset_filters`/`set_filters`; the scan reads `extFilter` (`__ext_filter`). -/
structure Prj where
  dcIdx : Nat
  imgExt : List String
  dsType : List String
  extFilter : Option (List String)
  extDead : PyAttr (List String)
  filtersRef : Nat
  dfRows : Table
  singleSession : Bool
  emptyProject : Bool
  subjectsA : PyAttr (List String)
  sessionsA : PyAttr (List String)
  dtypesA : PyAttr (List String)
  pipelinesA : PyAttr (List String)
  stepsA : PyAttr (List String)
  resultsA : PyAttr (List String)
deriving DecidableEq, Repr

/-- `sorted(list(set(column.tolist())))`: the sorted duplicate-free value list
of one column (missing values are dropped; well-formed trees have none). -/
def derive (f : Row → Option String) (df : Table) : List String :=
  List.insertionSort strLeP (df.filterMap f).dedup

/-- `Project.__update` (`hendlers.py` lines 437-471): recompute the derived
sets from the current table; with an empty table all six become `None`. -/
def updateAttrs (p : Prj) : Prj :=
  if p.dfRows.length ≠ 0 then
    let p := { p with
      subjectsA := .val (derive (Row.subject p.dcIdx) p.dfRows)
      sessionsA := if p.singleSession then .pyNone
        else .val (derive (Row.session p.dcIdx p.singleSession) p.dfRows) }
    if p.dcIdx == 0 then
      { p with dtypesA := .val (derive (Row.dtype p.singleSession) p.dfRows),
               pipelinesA := .pyNone, stepsA := .pyNone, resultsA := .pyNone }
    else if p.dcIdx == 1 then
      { p with dtypesA := .pyNone, pipelinesA := .val (derive Row.pipeline p.dfRows),
               stepsA := .val (derive Row.steprslt p.dfRows), resultsA := .pyNone }
    else if p.dcIdx == 2 then
      { p with dtypesA := .pyNone, pipelinesA := .val (derive Row.pipeline p.dfRows),
               resultsA := .val (derive Row.steprslt p.dfRows), stepsA := .pyNone }
    else p
  else
    { p with subjectsA := .pyNone, sessionsA := .pyNone, dtypesA := .pyNone,
             pipelinesA := .pyNone, stepsA := .pyNone, resultsA := .pyNone }

/-- `Project.scan_prj`: rebuild the table for the current dataclass; on a
non-empty parse apply the initial dataclass/extension filter, reorder the
display columns and recompute the derived sets; on an empty parse only set
the empty-project flag (the derived sets are *not* recomputed). -/
def scan_prj (disk : Disk) (p : Prj) : Prj :=
  let pr := parsing disk p.dcIdx
  let p := { p with dfRows := pr.df, singleSession := pr.singleSession }
  if !pr.emptyPrj then
    let p := { p with dfRows := initial_filter p.dfRows p.dsType p.extFilter }
    let p := updateAttrs p
    { p with emptyProject := false }
  else
    { p with emptyProject := true }

/-- Python truthiness of the `ext` argument of `reset_filters`. -/
def extTruthy : Option (List String) → Bool
  | some (_ :: _) => true
  | _ => false

/-- `Project.reset_filters`: rebind `__filters` to a fresh `[None] * 6` (a new
store cell), write the `_ext` attribute (a dead write: the scan keeps using
`__ext_filter`), rescan and recompute the derived sets. -/
def reset_filters (disk : Disk) (ext : Option (List String)) (st : Store) (p : Prj) :
    Store × Prj :=
  let st := st ++ [FilterVec.empty]
  let p := { p with filtersRef := st.length - 1 }
  let p := { p with extDead := if extTruthy ext then .val (ext.getD []) else .val p.imgExt }
  let p := scan_prj disk p
  (st, updateAttrs p)

/-- The `dataclass` property setter: a valid index resets the filters and
rescans on the new dataclass; an invalid one goes through
`SystemMethods.raiseerror` (process exit). -/
def dataclassSet (disk : Disk) (idx : Nat) (st : Store) (p : Prj) :
    Store × Except Err Prj :=
  if idx < 3 then
    let p := { p with dcIdx := idx }
    let (st, p) := reset_filters disk none st p
    (st, .ok (updateAttrs p))
  else (st, .error (.processExit "Wrong dataclass index."))

/-- Argument forms accepted by the `ext` property setter. -/
inductive ExtArg where
  | strA (s : String)
  | listA (l : List String)
  | noneA
deriving DecidableEq, Repr

def extSet (v : ExtArg) (p : Prj) : Prj :=
  match v with
  | .strA s => { p with extFilter := some [s] }
  | .listA l => { p with extFilter := some l }
  | .noneA => { p with extFilter := none }

/-! ## Filter-argument parsing (`ProjectMethods.check_arguments`, `set_filters`) -/

/-- `ProjectMethods.check_arguments`: collect the arguments found in the
vocabulary (scanning the *full* original argument tuple), and remove each
matched value once from the residual list. -/
def check_arguments (args residuals lists : List String) :
    List String × List String :=
  let fil := args.filter (fun a => decide (a ∈ lists))
  (fil, fil.foldl (fun r c => if c ∈ r then r.erase c else r) residuals)

/-- `extend` versus copy-assign of one filter slot, as in
`if self.__filters[k]: ... .extend(new) else: ... = new[:]`. -/
def assignOrExtend (cur : Option (List String)) (new : List String) : Option (List String) :=
  if truthySlot cur then some (cur.getD [] ++ new) else some new

/-- Subjects/Sessions block of `set_filters` (`hendlers.py` lines 247-270):
the residual list starts as a copy of the argument tuple; matched subjects
(and sessions, when multi-session) populate slots 0/1. -/
def spStage1 (p : Prj) (args : List String) (st : Store) : Store × List String :=
  let r := p.filtersRef
  if attrTruthy p.subjectsA then
    let sub := check_arguments args args p.subjectsA.getList
    let st1 := storeSet st r (fun fv => { fv with s0 := assignOrExtend fv.s0 sub.1 })
    if !p.singleSession then
      let ses := check_arguments args sub.2 p.sessionsA.getList
      (storeSet st1 r (fun fv => { fv with s1 := assignOrExtend fv.s1 ses.1 }), ses.2)
    else (storeSet st1 r (fun fv => { fv with s1 := none }), sub.2)
  else (storeSet st r (fun fv => { fv with s0 := none, s1 := none }), args)

/-- One slot-2 block (`DataType`/`Pipeline` vocabulary, depending on the
dataclass). -/
def spSlot2 (p : Prj) (vocab : PyAttr (List String)) (args : List String)
    (sr : Store × List String) : Store × List String :=
  let r := p.filtersRef
  if attrTruthy vocab then
    let mat := check_arguments args sr.2 vocab.getList
    (storeSet sr.1 r (fun fv => { fv with s2 := assignOrExtend fv.s2 mat.1 }), mat.2)
  else (storeSet sr.1 r (fun fv => { fv with s2 := none }), sr.2)

/-- One slot-3 block (`Step`/`Result` vocabulary). -/
def spSlot3 (p : Prj) (vocab : PyAttr (List String)) (args : List String)
    (sr : Store × List String) : Store × List String :=
  let r := p.filtersRef
  if attrTruthy vocab then
    let mat := check_arguments args sr.2 vocab.getList
    (storeSet sr.1 r (fun fv => { fv with s3 := assignOrExtend fv.s3 mat.1 }), mat.2)
  else (storeSet sr.1 r (fun fv => { fv with s3 := none }), sr.2)

/-- `self.__filters[3] = None` for dataclass 0. -/
def spSlot3None (p : Prj) (sr : Store × List String) : Store × List String :=
  (storeSet sr.1 p.filtersRef (fun fv => { fv with s3 := none }), sr.2)

/-- The positional-token part of `Project.set_filters` (`hendlers.py` lines
246-329): match the argument tuple against each vocabulary in priority
order, populate the slots of the current filter list, and return the
residual tokens. -/
def setPositional (p : Prj) (args : List String) (st : Store) : Store × List String :=
  let sr := spStage1 p args st
  if p.dcIdx == 0 then spSlot3None p (spSlot2 p p.dtypesA args sr)
  else if p.dcIdx == 1 then spSlot3 p p.stepsA args (spSlot2 p p.pipelinesA args sr)
  else spSlot3 p p.resultsA args (spSlot2 p p.pipelinesA args sr)

/-- Keyword arguments of `set_filters` (key/value pairs of the Python call). -/
abbrev Kwargs := List (String × String)

/-- `Project.set_filters`.  A non-empty keyword dictionary makes
`for key in kwargs.keys:` iterate over the bound *method* object itself
(the parentheses are missing in the source), which raises `TypeError`
before any state is touched; the entire keyword-handling loop body is
therefore dead code and is not modelled further.  With no keywords the
method resets (rescanning from disk), parses positional tokens, exits the
process on residual tokens, and otherwise applies the filter vector and
recomputes the derived sets. -/
def set_filters (disk : Disk) (args : List String) (kwargs : Kwargs)
    (st : Store) (p : Prj) : Store × Except Err Prj :=
  if !kwargs.isEmpty then (st, .error .typeError)
  else
    let sp := reset_filters disk p.extFilter st p
    let st := sp.1
    let p := sp.2
    if args.isEmpty then
      let p := { p with
        dfRows := applying_filters (storeGet st p.filtersRef) p.dcIdx p.singleSession p.dfRows }
      (st, .ok (updateAttrs p))
    else
      let sr := setPositional p args st
      let st := sr.1
      if sr.2.length ≠ 0 then
        (st, .error (.processExit ("Wrong filter input:" ++ toString args)))
      else
        let p := { p with
          dfRows := applying_filters (storeGet st p.filtersRef) p.dcIdx p.singleSession p.dfRows }
        (st, .ok (updateAttrs p))

/-- `Project.__call__`: shallow-copy the instance (the copy starts with the
same `filtersRef`, i.e. aliases the parent's filter list), switch the
dataclass if it differs, then apply `set_filters` — all rebinding happens on
the copy. -/
def projCall (disk : Disk) (dcId : Nat) (args : List String) (kwargs : Kwargs)
    (st : Store) (p : Prj) : Store × Except Err Prj :=
  if p.dcIdx ≠ dcId then
    match dataclassSet disk dcId st p with
    | (st, .error e) => (st, .error e)
    | (st, .ok prj) => set_filters disk args kwargs st prj
  else set_filters disk args kwargs st p

/-! ## Row access and construction -/

def projLen (p : Prj) : Nat := if p.emptyProject then 0 else p.dfRows.length

/-- `Project.__getitem__`: `None` for an empty project, `df.loc[index]`
otherwise (a missing label raises `KeyError`). -/
def projGetItem (p : Prj) (i : Nat) : Except Err (Option Row) :=
  if p.emptyProject then .ok none
  else match p.dfRows[i]? with
    | some r => .ok (some r)
    | none => .error .keyError

/-- `Project.__iter__`: raises `messages.EmptyProject` for an empty project,
otherwise yields `(position, row)` pairs from `df.iterrows()`. -/
def projIter (p : Prj) : Except Err (List (Nat × Row)) :=
  if p.emptyProject then .error .emptyProject
  else .ok p.dfRows.enum

/-- The `subjects` property: returns `self.__subjects`, which raises
`AttributeError` when the attribute was never assigned. -/
def projSubjects (p : Prj) : Except Err (Option (List String)) :=
  match p.subjectsA with
  | .unset => .error .attributeError
  | .pyNone => .ok none
  | .val l => .ok (some l)

/-- `Project.__init__`: default attributes, reference lookup (spec-modelled
`imgExt`/`dsType`), `mk_main_folder` (creates the three empty dataclass
directories, which contribute no file entries), then the initial scan. -/
def projInit (disk : Disk) (imgExt dsType : List String) : Store × Prj :=
  let st : Store := [FilterVec.empty]
  let p : Prj := {
    dcIdx := 0, imgExt := imgExt, dsType := dsType, extFilter := some imgExt,
    extDead := .unset, filtersRef := 0, dfRows := [], singleSession := false,
    emptyProject := false, subjectsA := .unset, sessionsA := .unset,
    dtypesA := .unset, pipelinesA := .unset, stepsA := .unset, resultsA := .unset }
  (st, scan_prj disk p)

/-! ## Step manager (`ProjectMethods.get_step_name`, `Process.init_step`) -/

/-- `str(n).zfill(3)`. -/
def zfill (s : String) (n : Nat) : String := String.mk (List.replicate (n - s.length) '0') ++ s

/-- Body of `ProjectMethods.get_step_name` from `methods.py` line 278 on,
over the listing of existing step directories: reuse the first existing
directory whose name contains the step name as a substring, otherwise
allocate `"<count+1 zero-padded>_<name>"` (`"001_<name>"` when there are no
steps yet).  Reaching this body requires the attribute reads of line 277 to
succeed first; see `get_step_name`. -/
def get_step_name_body (executedSteps : List String) (step : String) : String :=
  if executedSteps.length ≠ 0 then
    let overlapped := executedSteps.filter (fun old => strContains old step)
    if overlapped.length ≠ 0 then overlapped.headD ""
    else String.intercalate "_" [zfill (toString (executedSteps.length + 1)) 3, step]
  else String.intercalate "_" [zfill (toString 1) 3, step]

/-- A `Process` instance (`hendlers.py` lines 520-529): `__init__` binds
exactly `_subjects`, `_sessions`, `_prjobj` and — via `initiate_pipeline` —
`_pipeline`; the class adds only the `subjects`/`sessions` properties and
methods. -/
structure Process where
  subjectsP : Option (List String)
  sessionsP : Option (List String)
  prjobjF : Prj
  pipelineF : String
deriving DecidableEq, Repr

/-- Python attribute lookup on a `Process` instance: a name outside the set
bound by `__init__` and the class properties raises `AttributeError`.  In
particular `path`, `ds_type` and `pipeline` — the three names
`get_step_name` reads on its argument — do not exist. -/
def Process.getattrCheck (_ : Process) (name : String) : Except Err Unit :=
  if name ∈ ["_subjects", "_sessions", "_prjobj", "_pipeline", "subjects", "sessions"]
    then .ok () else .error .attributeError

/-- `ProjectMethods.get_step_name(prjobj, step)` (`methods.py` lines
276-293): the first statement computes
`os.path.join(prjobj.path, prjobj.ds_type[1], prjobj.pipeline)`, three
attribute reads on the received object.  The only call site
(`Process.init_step`, `hendlers.py` line 546) passes the `Process` object
itself, so the parameter here is a `Process`; `executedSteps` stands for
the `os.listdir`/`isdir` filtering of the pipeline path that follows, and
the allocation/reuse logic of the rest of the body is
`get_step_name_body`. -/
def get_step_name (prjobj : Process) (executedSteps : List String) (step : String) :
    Except Err String := do
  let _ ← prjobj.getattrCheck "path"
  let _ ← prjobj.getattrCheck "ds_type"
  let _ ← prjobj.getattrCheck "pipeline"
  pure (get_step_name_body executedSteps step)

/-- `SystemMethods.mkdir`: `os.mkdir` with all errors swallowed — creating an
existing directory changes nothing. -/
def mkdirModel (dirs : List String) (name : String) : List String :=
  if name ∈ dirs then dirs else dirs ++ [name]

/-- `Process.init_step` (`hendlers.py` lines 544-552): guard on the pipeline
name, then `ProjectMethods.get_step_name(self, stepname)` — passing the
`Process` itself — then the join
`self._prjobj.path`/`ds_type[1]`/`_pipeline`/steppath, mkdir and a rescan.
The join inputs read off the wrapped project (which does have `path` and
`ds_type`) are passed pre-resolved; that branch is unreachable, because
`get_step_name` fails on its first attribute read for every `Process`
argument. -/
def init_step (proc : Process) (projPath dsType1 : String) (pipelineDirs : List String)
    (stepname : String) : Except Err (String × List String) :=
  if proc.pipelineF ≠ "" then
    match get_step_name proc pipelineDirs stepname with
    | .error e => .error e
    | .ok stepdir =>
        .ok (String.intercalate "/" [projPath, dsType1, proc.pipelineF, stepdir],
             mkdirModel pipelineDirs stepdir)
  else .error .pipelineNotSet

instance {ε α : Type} [DecidableEq ε] [DecidableEq α] : DecidableEq (Except ε α) :=
  fun a b =>
    match a, b with
    | .error e, .error f =>
      if h : e = f then .isTrue (by rw [h]) else .isFalse (fun hc => h (by injection hc))
    | .error _, .ok _ => .isFalse (fun hc => Except.noConfusion hc)
    | .ok _, .error _ => .isFalse (fun hc => Except.noConfusion hc)
    | .ok x, .ok y =>
      if h : x = y then .isTrue (by rw [h]) else .isFalse (fun hc => h (by injection hc))

/-- The state `set_filters` re-derives its vocabularies from: the result of
the internal `reset_filters(self.ext)` call (which rescans from disk). -/
def postReset (disk : Disk) (st : Store) (p : Prj) : Prj :=
  (reset_filters disk p.extFilter st p).2

/-- The property that the stored derived sets describe the current table
(what `__update` establishes). -/
def derivedMatchesTable (p : Prj) : Prop :=
  if p.dfRows.length ≠ 0 then
    p.subjectsA = .val (derive (Row.subject p.dcIdx) p.dfRows) ∧
    p.sessionsA = (if p.singleSession then .pyNone
      else .val (derive (Row.session p.dcIdx p.singleSession) p.dfRows)) ∧
    (p.dcIdx = 0 →
      p.dtypesA = .val (derive (Row.dtype p.singleSession) p.dfRows) ∧
      p.pipelinesA = .pyNone ∧ p.stepsA = .pyNone ∧ p.resultsA = .pyNone) ∧
    (p.dcIdx = 1 →
      p.dtypesA = .pyNone ∧ p.pipelinesA = .val (derive Row.pipeline p.dfRows) ∧
      p.stepsA = .val (derive Row.steprslt p.dfRows) ∧ p.resultsA = .pyNone) ∧
    (p.dcIdx = 2 →
      p.dtypesA = .pyNone ∧ p.pipelinesA = .val (derive Row.pipeline p.dfRows) ∧
      p.resultsA = .val (derive Row.steprslt p.dfRows) ∧ p.stepsA = .pyNone)
  else
    p.subjectsA = .pyNone ∧ p.sessionsA = .pyNone ∧ p.dtypesA = .pyNone ∧
    p.pipelinesA = .pyNone ∧ p.stepsA = .pyNone ∧ p.resultsA = .pyNone

/-! ## Concrete instances used by counterexamples and witnesses -/

def demoDsType : List String := ["Data", "Processing", "Results"]

/-- A single-session Raw tree with subjects `A` and `B`, one `func` file each,
listed in non-sorted enumeration order. -/
def demoDisk : Disk :=
  { raw := [⟨["Data", "B", "func"], "b.nii", "/p/Data/B/func/b.nii"⟩,
            ⟨["Data", "A", "func"], "a_mask.nii", "/p/Data/A/func/a_mask.nii"⟩],
    processing := [], results := [] }

def demoSt : Store := (projInit demoDisk [".nii"] demoDsType).1

def demoPrj : Prj := (projInit demoDisk [".nii"] demoDsType).2

def emptyDisk : Disk := ⟨[], [], []⟩

def emptyPrjDemo : Prj := (projInit emptyDisk [".nii"] demoDsType).2

/-- Raw tree in which every filename contains `"mask"`. -/
def maskDisk : Disk :=
  { raw := [⟨["Data", "A", "func"], "a_mask.nii", "/p/Data/A/func/a_mask.nii"⟩,
            ⟨["Data", "B", "func"], "b_mask.nii", "/p/Data/B/func/b_mask.nii"⟩],
    processing := [], results := [] }

def maskSt : Store := (projInit maskDisk [".nii"] demoDsType).1

def maskPrj : Prj := (projInit maskDisk [".nii"] demoDsType).2

/-- Raw tree holding one `.nii` file and one `.txt` file. -/
def extDisk : Disk :=
  { raw := [⟨["Data", "A", "func"], "a.nii", "/p/Data/A/func/a.nii"⟩,
            ⟨["Data", "A", "func"], "b.txt", "/p/Data/A/func/b.txt"⟩],
    processing := [], results := [] }

def extInit : Store × Prj := projInit extDisk [".nii"] demoDsType

/-- Change the extension filter to `.txt` through the `ext` setter, then call
`reset_filters()`. -/
def extReset : Store × Prj :=
  reset_filters extDisk none extInit.1 (extSet (.strA ".txt") extInit.2)

/-- The project of `demoDisk` rescanned after the tree has been emptied. -/
def stalePrj : Prj := scan_prj emptyDisk demoPrj

/-- A multi-session Raw tree in which the string `"X"` is both a subject name
and a datatype name. -/
def multiDisk : Disk :=
  { raw := [⟨["Data", "X", "s1", "X"], "f.nii", "/p/Data/X/s1/X/f.nii"⟩,
            ⟨["Data", "Y", "s1", "X"], "g.nii", "/p/Data/Y/s1/X/g.nii"⟩],
    processing := [], results := [] }

def multiSt : Store := (projInit multiDisk [".nii"] demoDsType).1

def multiPrj : Prj := (projInit multiDisk [".nii"] demoDsType).2

/-- Two enumerations of the same tree in different filesystem orders. -/
def permEntries1 : List FileEntry :=
  [⟨["Data", "A", "func"], "a.nii", "/p/Data/A/func/a.nii"⟩,
   ⟨["Data", "B", "anat"], "b.nii", "/p/Data/B/anat/b.nii"⟩]

def permEntries2 : List FileEntry :=
  [⟨["Data", "B", "anat"], "b.nii", "/p/Data/B/anat/b.nii"⟩,
   ⟨["Data", "A", "func"], "a.nii", "/p/Data/A/func/a.nii"⟩]

theorem afStep0_eq (fv : FilterVec) (dc : Nat) (df : Table) :
    afStep0 fv dc df = df.filter (fun r => afPred0 fv dc r) := by
  unfold afStep0 afPred0
  cases h : truthySlot fv.s0 <;> simp [h, List.filter_eq_self]

theorem afStep1_eq (fv : FilterVec) (dc : Nat) (single : Bool) (df : Table) :
    afStep1 fv dc single df = df.filter (fun r => afPred1 fv dc single r) := by
  unfold afStep1 afPred1
  cases h : truthySlot fv.s1 <;> simp [h, List.filter_eq_self]

theorem afStep2_eq (fv : FilterVec) (dc : Nat) (single : Bool) (df : Table) :
    afStep2 fv dc single df = df.filter (fun r => afPred2 fv dc single r) := by
  unfold afStep2 afPred2
  cases h : truthySlot fv.s2 <;> cases hd : dc == 0 <;> simp [h, hd, List.filter_eq_self]

theorem afStep3_eq (fv : FilterVec) (dc : Nat) (df : Table) :
    afStep3 fv dc df = df.filter (fun r => afPred3 fv dc r) := by
  unfold afStep3 afPred3
  cases h : truthySlot fv.s3 <;> cases hd1 : dc == 1 <;> cases hd2 : dc == 2 <;>
    simp [h, hd1, hd2, List.filter_eq_self]

theorem afStep4_eq (fv : FilterVec) (df : Table) :
    afStep4 fv df = df.filter (fun r => afPred4 fv r) := by
  unfold afStep4 afPred4
  cases h : fv.s4 <;> simp [h, List.filter_eq_self]

theorem afStep5_eq (fv : FilterVec) (df : Table) :
    afStep5 fv df = df.filter (fun r => afPred5 fv r) := by
  unfold afStep5 afPred5
  cases h : fv.s5 <;> simp [h, List.filter_eq_self]

/-- One pass of `applying_filters` is a single `List.filter`. -/
theorem applying_filters_eq_filter (fv : FilterVec) (dc : Nat) (single : Bool) (df : Table) :
    applying_filters fv dc single df = df.filter (fun r => afPred fv dc single r) := by
  by_cases hdf : df.length ≠ 0
  · unfold applying_filters
    rw [if_pos hdf, afStep0_eq, afStep1_eq, afStep2_eq, afStep3_eq, afStep4_eq, afStep5_eq,
      List.filter_filter, List.filter_filter, List.filter_filter, List.filter_filter,
      List.filter_filter]
    rfl
  · have hnil : df = [] := by
      cases df with
      | nil => rfl
      | cons a l => simp at hdf
    simp [applying_filters, hnil]

/-- Claim C9: filter application is idempotent — for every table and every
filter vector (any combination of the six slots populated or absent, and any
dataclass/session mode), applying the filter vector twice yields exactly the
table obtained by applying it once. -/
theorem applying_filters_idempotent (fv : FilterVec) (dc : Nat) (single : Bool) (df : Table) :
    applying_filters fv dc single (applying_filters fv dc single df)
      = applying_filters fv dc single df := by
  rw [applying_filters_eq_filter, applying_filters_eq_filter, List.filter_filter]
  exact List.filter_congr (fun r _ => Bool.and_self _)

theorem strContains_append_self (pre s : String) : strContains (pre ++ s) s = true := by
  simp only [strContains, String.data_append, decide_eq_true_eq]
  exact (List.suffix_append pre.data s.data).isInfix

theorem get_step_name_nil (s : String) : get_step_name_body [] s = "001_" ++ s := by
  simp [get_step_name_body]
  rfl

theorem get_step_name_reuse (s : String) :
    get_step_name_body ["001_" ++ s] s = "001_" ++ s := by
  simp [get_step_name_body, strContains_append_self]

theorem get_step_name_always_fails (proc : Process) (dirs : List String) (s : String) :
    get_step_name proc dirs s = .error .attributeError := rfl

/-- Claim C4 (code bug): every `init_step` call on a named pipeline raises
`AttributeError` before any directory logic runs, because `init_step` hands
the `Process` object itself to `get_step_name`, whose first statement reads
the `path`, `ds_type` and `pipeline` attributes that a `Process` does not
have (`methods.py` line 277); `"001_Motion"` is therefore never created,
let alone reused, and with an unset pipeline the call raises
`PipelineNotSet` instead.  Second conjunct: the unreachable allocation/reuse
body does behave exactly as the claim describes — with no existing step
directories it allocates `"001_<name>"`, and run again on a listing holding
that directory it finds it by substring containment and returns it
unchanged. -/
theorem init_step_attribute_error :
    (∀ (proc : Process) (pp dt : String) (dirs : List String) (s : String),
      init_step proc pp dt dirs s =
        .error (if proc.pipelineF = "" then Err.pipelineNotSet else Err.attributeError)) ∧
    (∀ s : String,
      get_step_name_body [] s = "001_" ++ s ∧
      get_step_name_body ["001_" ++ s] s = "001_" ++ s) := by
  constructor
  · intro proc pp dt dirs s
    by_cases hp : proc.pipelineF = ""
    · simp [init_step, hp]
    · simp [init_step, hp, get_step_name_always_fails]
  · intro s
    exact ⟨get_step_name_nil s, get_step_name_reuse s⟩

/-- Claim C2 (code bug): every keyword call of `set_filters` dies with a
`TypeError` before touching any state, because the source iterates
`kwargs.keys` — the bound method object — instead of `kwargs.keys()`.  The
calls `file_tag=["mask"]`, `ignore=["mask"]` and their combination therefore
never narrow the table as the claim describes. -/
theorem set_filters_kwargs_raise_typeerror :
    (set_filters maskDisk [] [("file_tag", "mask")] maskSt maskPrj).2 = .error .typeError ∧
    (set_filters maskDisk [] [("ignore", "mask")] maskSt maskPrj).2 = .error .typeError ∧
    (set_filters maskDisk [] [("file_tag", "mask"), ("ignore", "mask")] maskSt maskPrj).2
      = .error .typeError := by
  exact ⟨rfl, rfl, rfl⟩

/-- Claim C7 (code bug): `reset_filters` clears the six slots but does *not*
restore the extension filter used by the scan: the assignment
`self._ext = self.img_ext` writes a stray `_ext` attribute while the scan
keeps reading `__ext_filter`.  After setting `ext = '.txt'` and calling
`reset_filters()`, the rescanned table still contains only the `.txt` file
instead of the image-format default `.nii` file. -/
theorem reset_filters_keeps_overridden_ext :
    extReset.2.extFilter = some [".txt"] ∧
    extReset.2.extDead = .val [".nii"] ∧
    storeGet extReset.1 extReset.2.filtersRef = FilterVec.empty ∧
    extReset.2.dfRows = [⟨["Data", "A", "func"], "b.txt", "/p/Data/A/func/b.txt"⟩] := by
  exact ⟨by decide, by decide, by decide, by decide⟩

/-- Counterexample for C5: after `demoDisk`'s files disappear, a direct
`scan_prj` (the bare rescan `Process.initiate_pipeline` triggers after its
mkdir) rebuilds an empty table but
leaves the derived subjects at their previous value `["A", "B"]` — the
derived sets describe the previous table, contradicting the claim that they
are recomputed before every rebuild returns, in particular when the rebuild
finds the project empty. -/
theorem scan_prj_empty_keeps_stale_derived :
    stalePrj.dfRows = [] ∧ stalePrj.emptyProject = true ∧
    stalePrj.subjectsA = .val ["A", "B"] := by
  exact ⟨by decide, by decide, by decide⟩

/-! ## Field-preservation and store lemmas -/

theorem updateAttrs_fields (p : Prj) :
    (updateAttrs p).dfRows = p.dfRows ∧ (updateAttrs p).filtersRef = p.filtersRef ∧
    (updateAttrs p).dcIdx = p.dcIdx ∧ (updateAttrs p).singleSession = p.singleSession ∧
    (updateAttrs p).extFilter = p.extFilter ∧ (updateAttrs p).emptyProject = p.emptyProject := by
  unfold updateAttrs
  split_ifs <;> simp <;> split_ifs <;> simp

theorem scan_prj_fields (disk : Disk) (p : Prj) :
    (scan_prj disk p).filtersRef = p.filtersRef ∧ (scan_prj disk p).dcIdx = p.dcIdx ∧
    (scan_prj disk p).extFilter = p.extFilter := by
  simp only [scan_prj]
  split_ifs <;> simp [updateAttrs_fields]

theorem reset_filters_store (disk : Disk) (ext : Option (List String)) (st : Store) (p : Prj) :
    (reset_filters disk ext st p).1 = st ++ [FilterVec.empty] := rfl

theorem reset_filters_ref (disk : Disk) (ext : Option (List String)) (st : Store) (p : Prj) :
    (reset_filters disk ext st p).2.filtersRef = st.length := by
  show (updateAttrs (scan_prj disk _)).filtersRef = st.length
  rw [(updateAttrs_fields _).2.1, (scan_prj_fields _ _).1]
  simp

theorem reset_filters_dcIdx (disk : Disk) (ext : Option (List String)) (st : Store)
    (p : Prj) : (reset_filters disk ext st p).2.dcIdx = p.dcIdx := by
  show (updateAttrs (scan_prj disk _)).dcIdx = p.dcIdx
  rw [(updateAttrs_fields _).2.2.1, (scan_prj_fields _ _).2.1]

theorem storeGet_append_lt (st : Store) (v : FilterVec) (r : Nat) (h : r < st.length) :
    storeGet (st ++ [v]) r = storeGet st r := by
  simp [storeGet, List.getD_eq_getElem?_getD, List.getElem?_append_left h]

theorem storeGet_set_ne (st : Store) (r1 : Nat) (f : FilterVec → FilterVec) (r2 : Nat)
    (h : r2 ≠ r1) : storeGet (storeSet st r1 f) r2 = storeGet st r2 := by
  simp [storeGet, storeSet, List.getD_eq_getElem?_getD,
    List.getElem?_set_ne (fun hc => h hc.symm)]

theorem storeSet_length (st : Store) (r : Nat) (f : FilterVec → FilterVec) :
    (storeSet st r f).length = st.length := by
  simp [storeSet]

theorem spStage1_store_ne (p : Prj) (args : List String) (st : Store) (x : Nat)
    (h : x ≠ p.filtersRef) :
    storeGet (spStage1 p args st).1 x = storeGet st x := by
  unfold spStage1
  split_ifs <;> simp [storeGet_set_ne, h]

theorem spSlot2_store_ne (p : Prj) (vocab : PyAttr (List String)) (args : List String)
    (sr : Store × List String) (x : Nat) (h : x ≠ p.filtersRef) :
    storeGet (spSlot2 p vocab args sr).1 x = storeGet sr.1 x := by
  unfold spSlot2
  split_ifs <;> simp [storeGet_set_ne, h]

theorem spSlot3_store_ne (p : Prj) (vocab : PyAttr (List String)) (args : List String)
    (sr : Store × List String) (x : Nat) (h : x ≠ p.filtersRef) :
    storeGet (spSlot3 p vocab args sr).1 x = storeGet sr.1 x := by
  unfold spSlot3
  split_ifs <;> simp [storeGet_set_ne, h]

theorem spSlot3None_store_ne (p : Prj) (sr : Store × List String) (x : Nat)
    (h : x ≠ p.filtersRef) :
    storeGet (spSlot3None p sr).1 x = storeGet sr.1 x := by
  unfold spSlot3None
  simp [storeGet_set_ne, h]

theorem setPositional_store_ne (p : Prj) (args : List String) (st : Store) (r : Nat)
    (h : r ≠ p.filtersRef) :
    storeGet (setPositional p args st).1 r = storeGet st r := by
  unfold setPositional
  split_ifs <;>
    simp [spSlot3None_store_ne, spSlot3_store_ne, spSlot2_store_ne, spStage1_store_ne, h]

theorem set_filters_store_lt (disk : Disk) (args : List String) (kwargs : Kwargs)
    (st : Store) (p : Prj) (r : Nat) (h : r < st.length) :
    storeGet (set_filters disk args kwargs st p).1 r = storeGet st r := by
  simp only [set_filters]
  split_ifs with h1 h2 h3
  · rfl
  · rw [reset_filters_store]
    exact storeGet_append_lt st _ r h
  · rw [setPositional_store_ne _ _ _ _ (by rw [reset_filters_ref]; omega),
      reset_filters_store]
    exact storeGet_append_lt st _ r h
  · rw [setPositional_store_ne _ _ _ _ (by rw [reset_filters_ref]; omega),
      reset_filters_store]
    exact storeGet_append_lt st _ r h

theorem dataclassSet_store_lt (disk : Disk) (idx : Nat) (st : Store) (p : Prj) (r : Nat)
    (h : r < st.length) :
    storeGet (dataclassSet disk idx st p).1 r = storeGet st r := by
  unfold dataclassSet
  split_ifs
  · rw [reset_filters_store]
    exact storeGet_append_lt st _ r h
  · rfl

theorem dataclassSet_store_len (disk : Disk) (idx : Nat) (st : Store) (p : Prj) :
    st.length ≤ (dataclassSet disk idx st p).1.length := by
  unfold dataclassSet
  split_ifs
  · rw [reset_filters_store]
    simp
  · simp

/-- Claim C1: a query call (`Project.__call__`) never mutates the instance it
was called on.  The source only ever *rebinds* the copy's table, filter list
and derived-set attributes (so in this embedding they are per-record fields of
the copy), and the single mutable object the shallow copy shares with its
parent — the `__filters` list in the store — is re-allocated by the initial
`reset_filters` before any slot is written.  Hence the content of the
parent's filter cell, and with it every observation of the parent (table,
filter vector, derived sets such as `subjects`), is the same before and after
the call, whether the call succeeds or fails. -/
theorem projCall_never_mutates_parent (disk : Disk) (dcId : Nat) (args : List String)
    (kwargs : Kwargs) (st : Store) (p : Prj) (h : p.filtersRef < st.length) :
    storeGet (projCall disk dcId args kwargs st p).1 p.filtersRef
      = storeGet st p.filtersRef := by
  unfold projCall
  by_cases hd : p.dcIdx ≠ dcId
  · rw [if_pos hd]
    rcases hE : dataclassSet disk dcId st p with ⟨st2, res⟩
    have hget : storeGet st2 p.filtersRef = storeGet st p.filtersRef := by
      have hx := dataclassSet_store_lt disk dcId st p p.filtersRef h
      rwa [hE] at hx
    have hlen : st.length ≤ st2.length := by
      have hx := dataclassSet_store_len disk dcId st p
      rwa [hE] at hx
    cases res with
    | error e => exact hget
    | ok prj =>
      exact (set_filters_store_lt disk args kwargs st2 prj p.filtersRef
        (by omega)).trans hget
  · rw [if_neg hd]
    exact set_filters_store_lt disk args kwargs st p p.filtersRef h

/-- Witness for C1: a concrete query with a subject filter on `demoDisk`. -/
theorem projCall_never_mutates_parent_witness :
    demoPrj.filtersRef < demoSt.length ∧
    storeGet (projCall demoDisk 0 ["A"] [] demoSt demoPrj).1 demoPrj.filtersRef
      = storeGet demoSt demoPrj.filtersRef :=
  ⟨by decide, projCall_never_mutates_parent demoDisk 0 ["A"] [] demoSt demoPrj (by decide)⟩

/-! ## Derived-set recomputation (C5) and empty-project access (C6) -/

theorem updateAttrs_matches (p : Prj) (h : p.dcIdx < 3) :
    derivedMatchesTable (updateAttrs p) := by
  have h3 : p.dcIdx = 0 ∨ p.dcIdx = 1 ∨ p.dcIdx = 2 := by omega
  by_cases hn : p.dfRows.length ≠ 0
  · rcases h3 with h0 | h0 | h0 <;> simp [updateAttrs, derivedMatchesTable, hn, h0]
  · simp [updateAttrs, derivedMatchesTable, hn]

theorem derivedMatchesTable_emptyProject (p : Prj) (b : Bool) :
    derivedMatchesTable { p with emptyProject := b } ↔ derivedMatchesTable p := by
  simp [derivedMatchesTable]

theorem parseEntries_empty_df (e : List FileEntry) (idx : Nat)
    (h : (parseEntries e idx).emptyPrj = true) : (parseEntries e idx).df = [] := by
  simp only [parseEntries] at h ⊢
  split_ifs at h ⊢ <;> simp_all

set_option maxHeartbeats 1000000 in
/-- Claim C5 as amended: the derived sets are recomputed from the resulting
table whenever a rebuild finds the project non-empty; `reset_filters` (and
hence a filter reset or dataclass switch) recomputes them even when the
resulting table is empty; every `set_filters` call that returns normally
likewise leaves the derived sets matching its resulting table; but a bare
`scan_prj` rescan (as triggered by a step-directory mutation) that finds
the project empty only sets the empty-project flag and leaves the derived
sets at their previous values. -/
theorem derived_sets_recompute_behavior :
    (∀ disk p, p.dcIdx < 3 → (parsing disk p.dcIdx).emptyPrj = false →
      derivedMatchesTable (scan_prj disk p)) ∧
    (∀ disk ext st p, p.dcIdx < 3 →
      derivedMatchesTable (reset_filters disk ext st p).2) ∧
    (∀ disk args kwargs st p, p.dcIdx < 3 → ∀ p2,
      (set_filters disk args kwargs st p).2 = .ok p2 → derivedMatchesTable p2) ∧
    (∀ disk p, (parsing disk p.dcIdx).emptyPrj = true →
      (scan_prj disk p).subjectsA = p.subjectsA ∧ (scan_prj disk p).dfRows = []) := by
  refine ⟨?_, ?_, ?_, ?_⟩
  · intro disk p h3 hne
    simp only [scan_prj, hne, Bool.not_false, if_pos]
    rw [derivedMatchesTable_emptyProject]
    exact updateAttrs_matches _ h3
  · intro disk ext st p h3
    simp only [reset_filters]
    exact updateAttrs_matches _ (by rw [(scan_prj_fields _ _).2.1]; exact h3)
  · intro disk args kwargs st p h3 p2 hok
    have hdc := reset_filters_dcIdx disk p.extFilter st p
    simp only [set_filters] at hok
    split_ifs at hok
    all_goals injection hok with hok
    all_goals rw [← hok]
    all_goals exact updateAttrs_matches _ (hdc.symm ▸ h3)
  · intro disk p he
    have hdf : (parsing disk p.dcIdx).df = [] := parseEntries_empty_df _ _ he
    simp only [scan_prj, he, Bool.not_true, hdf]
    exact ⟨rfl, rfl⟩

/-- Witness for C5 at concrete states: `demoDisk` is non-empty (so `scan_prj`
and `reset_filters` recompute), `set_filters` with the positional token
`"A"` succeeds there (the success is itself checked: the result is `ok`)
and leaves the derived sets matching its table, and `emptyDisk` triggers
the stale branch. -/
theorem derived_sets_recompute_behavior_witness :
    demoPrj.dcIdx < 3 ∧
    (parsing demoDisk demoPrj.dcIdx).emptyPrj = false ∧
    derivedMatchesTable (scan_prj demoDisk demoPrj) ∧
    derivedMatchesTable (reset_filters demoDisk none demoSt demoPrj).2 ∧
    (∀ p2, (set_filters demoDisk ["A"] [] demoSt demoPrj).2 = .ok p2 →
      derivedMatchesTable p2) ∧
    (set_filters demoDisk ["A"] [] demoSt demoPrj).2.toOption.isSome = true ∧
    (parsing emptyDisk demoPrj.dcIdx).emptyPrj = true ∧
    (scan_prj emptyDisk demoPrj).subjectsA = demoPrj.subjectsA ∧
    (scan_prj emptyDisk demoPrj).dfRows = [] :=
  ⟨by decide, by decide,
   derived_sets_recompute_behavior.1 demoDisk demoPrj (by decide) (by decide),
   derived_sets_recompute_behavior.2.1 demoDisk none demoSt demoPrj (by decide),
   derived_sets_recompute_behavior.2.2.1 demoDisk ["A"] [] demoSt demoPrj (by decide),
   by decide,
   by decide,
   (derived_sets_recompute_behavior.2.2.2 emptyDisk demoPrj (by decide)).1,
   (derived_sets_recompute_behavior.2.2.2 emptyDisk demoPrj (by decide)).2⟩

/-- Counterexample for C6: on a freshly constructed empty project, iterating
raises `EmptyProject` (instead of yielding no items) and reading the
`subjects` property raises `AttributeError` (the attribute was never
assigned), contradicting the claim that none of the accesses raises. -/
theorem empty_project_iteration_raises :
    projIter emptyPrjDemo = .error .emptyProject ∧
    projSubjects emptyPrjDemo = .error .attributeError := ⟨by decide, by decide⟩

/-- Claim C6 as amended: on an empty Raw subtree, `len` is `0` and positional
indexing returns `None` without raising, but iteration raises `EmptyProject`
and the `subjects` read raises `AttributeError` (the derived attributes were
never assigned because the empty scan skips `__update`). -/
theorem empty_project_access_behavior (disk : Disk) (imgExt dsType : List String) (i : Nat)
    (h : disk.raw = []) :
    projLen (projInit disk imgExt dsType).2 = 0 ∧
    projGetItem (projInit disk imgExt dsType).2 i = .ok none ∧
    projIter (projInit disk imgExt dsType).2 = .error .emptyProject ∧
    projSubjects (projInit disk imgExt dsType).2 = .error .attributeError := by
  have hp : (projInit disk imgExt dsType).2 =
      { dcIdx := 0, imgExt := imgExt, dsType := dsType, extFilter := some imgExt,
        extDead := .unset, filtersRef := 0, dfRows := [], singleSession := false,
        emptyProject := true, subjectsA := .unset, sessionsA := .unset, dtypesA := .unset,
        pipelinesA := .unset, stepsA := .unset, resultsA := .unset } := by
    simp [projInit, scan_prj, parsing, Disk.entriesFor, parseEntries, h, numColumns,
      maxCompLen, subjectPos, sortByAbspath]
  rw [hp]
  exact ⟨rfl, rfl, rfl, rfl⟩

/-- Witness for C6 at the concrete empty project. -/
theorem empty_project_access_behavior_witness :
    emptyDisk.raw = [] ∧
    (projLen (projInit emptyDisk [".nii"] demoDsType).2 = 0 ∧
     projGetItem (projInit emptyDisk [".nii"] demoDsType).2 5 = .ok none ∧
     projIter (projInit emptyDisk [".nii"] demoDsType).2 = .error .emptyProject ∧
     projSubjects (projInit emptyDisk [".nii"] demoDsType).2 = .error .attributeError) :=
  ⟨rfl, empty_project_access_behavior emptyDisk [".nii"] demoDsType 5 rfl⟩

/-! ## Input validation (C3) -/

theorem mem_foldl_erase_guard (m : List String) (a : String) :
    ∀ r : List String, a ∈ r → (∀ c ∈ m, c ≠ a) →
      a ∈ m.foldl (fun r c => if c ∈ r then r.erase c else r) r := by
  induction m with
  | nil => intro r h _; exact h
  | cons c m ih =>
    intro r hr hm
    have hca : c ≠ a := hm c (List.mem_cons_self c m)
    have h2 : a ∈ (if c ∈ r then r.erase c else r) := by
      split_ifs with hcr
      · exact (List.mem_erase_of_ne (fun he => hca he.symm)).2 hr
      · exact hr
    exact ih _ h2 (fun x hx => hm x (List.mem_cons_of_mem _ hx))

theorem check_arguments_residual_mem (args residuals lists : List String) (a : String)
    (ha : a ∈ residuals) (hnl : a ∉ lists) :
    a ∈ (check_arguments args residuals lists).2 := by
  unfold check_arguments
  refine mem_foldl_erase_guard _ a residuals ha (fun c hc he => hnl ?_)
  subst he
  have hcl := List.mem_filter.1 hc
  exact of_decide_eq_true hcl.2

theorem spStage1_residual_mem (p : Prj) (args : List String) (st : Store) (a : String)
    (ha : a ∈ args) (h1 : a ∉ p.subjectsA.getList) (h2 : a ∉ p.sessionsA.getList) :
    a ∈ (spStage1 p args st).2 := by
  unfold spStage1
  split_ifs <;> solve_by_elim [check_arguments_residual_mem, ha, h1, h2]

theorem spSlot2_residual_mem (p : Prj) (vocab : PyAttr (List String)) (args : List String)
    (sr : Store × List String) (a : String) (ha : a ∈ sr.2) (hv : a ∉ vocab.getList) :
    a ∈ (spSlot2 p vocab args sr).2 := by
  unfold spSlot2
  split_ifs <;> solve_by_elim [check_arguments_residual_mem, ha, hv]

theorem spSlot3_residual_mem (p : Prj) (vocab : PyAttr (List String)) (args : List String)
    (sr : Store × List String) (a : String) (ha : a ∈ sr.2) (hv : a ∉ vocab.getList) :
    a ∈ (spSlot3 p vocab args sr).2 := by
  unfold spSlot3
  split_ifs <;> solve_by_elim [check_arguments_residual_mem, ha, hv]

theorem setPositional_residual_mem (p : Prj) (args : List String) (st : Store) (a : String)
    (ha : a ∈ args)
    (h1 : a ∉ p.subjectsA.getList) (h2 : a ∉ p.sessionsA.getList)
    (h3 : a ∉ p.dtypesA.getList) (h4 : a ∉ p.pipelinesA.getList)
    (h5 : a ∉ p.stepsA.getList) (h6 : a ∉ p.resultsA.getList) :
    a ∈ (setPositional p args st).2 := by
  unfold setPositional
  split_ifs with hd0 hd1
  · simp only [spSlot3None]
    exact spSlot2_residual_mem p p.dtypesA args _ a
      (spStage1_residual_mem p args st a ha h1 h2) h3
  · exact spSlot3_residual_mem p p.stepsA args _ a
      (spSlot2_residual_mem p p.pipelinesA args _ a
        (spStage1_residual_mem p args st a ha h1 h2) h4) h5
  · exact spSlot3_residual_mem p p.resultsA args _ a
      (spSlot2_residual_mem p p.pipelinesA args _ a
        (spStage1_residual_mem p args st a ha h1 h2) h4) h6

theorem attrTruthy_of_mem (a : PyAttr (List String)) (t : String) (h : t ∈ a.getList) :
    attrTruthy a = true := by
  cases a with
  | unset => simp [PyAttr.getList] at h
  | pyNone => simp [PyAttr.getList] at h
  | val l =>
    cases l with
    | nil => simp [PyAttr.getList] at h
    | cons x xs => rfl

theorem storeGet_append_self (st : Store) (v : FilterVec) :
    storeGet (st ++ [v]) st.length = v := by
  simp [storeGet, List.getD_eq_getElem?_getD, List.getElem?_concat_length]

theorem storeGet_set_self (st : Store) (r : Nat) (f : FilterVec → FilterVec)
    (h : r < st.length) : storeGet (storeSet st r f) r = f (storeGet st r) := by
  simp [storeGet, storeSet, List.getD_eq_getElem?_getD, List.getElem?_set_self h]

/-- Counterexample for C3: with subjects `{A, B}`, `set_filters("Z")` does not
surface a catchable `InvalidFilterArgument` to the caller — the
`InputValueError` is raised and immediately caught inside
`SystemMethods.raiseerror`, which writes the message to stderr and terminates
the process via `sys.exit()` (`Err.processExit`). -/
theorem set_filters_unknown_token_exits_process :
    (set_filters demoDisk ["Z"] [] demoSt demoPrj).2
      = .error (.processExit "Wrong filter input:[Z]") := by decide

/-- Claim C3 as amended: a positional token that matches none of the current
vocabularies makes `set_filters` fail with the `InputValueError` message
naming the offending input, but through `SystemMethods.raiseerror`, which
catches the exception itself and terminates the process with `sys.exit()`
(`Err.processExit`) instead of propagating a catchable error; a token that is
a subject name succeeds and narrows the table to the rows with that
`Subject` value. -/
theorem set_filters_validation_behavior :
    (∀ (disk : Disk) (st : Store) (p : Prj) (args : List String) (a : String),
      a ∈ args →
      a ∉ (postReset disk st p).subjectsA.getList →
      a ∉ (postReset disk st p).sessionsA.getList →
      a ∉ (postReset disk st p).dtypesA.getList →
      a ∉ (postReset disk st p).pipelinesA.getList →
      a ∉ (postReset disk st p).stepsA.getList →
      a ∉ (postReset disk st p).resultsA.getList →
      (set_filters disk args [] st p).2
        = .error (.processExit ("Wrong filter input:" ++ toString args))) ∧
    (∀ (disk : Disk) (st : Store) (p : Prj) (t : String),
      (postReset disk st p).dcIdx = 0 →
      (postReset disk st p).singleSession = true →
      t ∈ (postReset disk st p).subjectsA.getList →
      t ∉ (postReset disk st p).dtypesA.getList →
      ∃ p2, (set_filters disk [t] [] st p).2 = .ok p2 ∧
        p2.dfRows = (postReset disk st p).dfRows.filter
          (fun r => memIsin (Row.subject 0 r) [t])) := by
  constructor
  · intro disk st p args a ha h1 h2 h3 h4 h5 h6
    unfold postReset at h1 h2 h3 h4 h5 h6
    have hm : a ∈ (setPositional (reset_filters disk p.extFilter st p).2 args
        (reset_filters disk p.extFilter st p).1).2 :=
      setPositional_residual_mem _ _ _ _ ha h1 h2 h3 h4 h5 h6
    have hlen : (setPositional (reset_filters disk p.extFilter st p).2 args
        (reset_filters disk p.extFilter st p).1).2.length ≠ 0 := by
      intro hz
      rw [List.length_eq_zero] at hz
      rw [hz] at hm
      exact absurd hm (List.not_mem_nil a)
    have hane : ¬(args.isEmpty = true) := by
      cases hA : args.isEmpty
      · simp
      · rw [List.isEmpty_iff] at hA
        subst hA
        exact absurd ha (List.not_mem_nil a)
    simp only [set_filters]
    rw [if_neg (by simp), if_neg hane, if_pos hlen]
  · intro disk st p t hdc hss hsub hdty
    unfold postReset at hdc hss hsub hdty
    have htr := attrTruthy_of_mem _ _ hsub
    have hca1 : check_arguments [t] [t]
        (reset_filters disk p.extFilter st p).2.subjectsA.getList = ([t], []) := by
      simp [check_arguments, hsub]
    have hs1 : spStage1 (reset_filters disk p.extFilter st p).2 [t]
        (reset_filters disk p.extFilter st p).1 =
        (storeSet (storeSet (reset_filters disk p.extFilter st p).1
            (reset_filters disk p.extFilter st p).2.filtersRef
            (fun fv => { fv with s0 := assignOrExtend fv.s0 [t] }))
          (reset_filters disk p.extFilter st p).2.filtersRef
          (fun fv => { fv with s1 := none }), []) := by
      unfold spStage1
      rw [if_pos htr, hca1]
      rw [hss]
      rfl
    have hrefLt : (reset_filters disk p.extFilter st p).2.filtersRef
        < (reset_filters disk p.extFilter st p).1.length := by
      rw [reset_filters_ref, reset_filters_store]
      simp
    have hbase : storeGet (reset_filters disk p.extFilter st p).1
        (reset_filters disk p.extFilter st p).2.filtersRef = FilterVec.empty := by
      rw [reset_filters_ref, reset_filters_store]
      exact storeGet_append_self st FilterVec.empty
    by_cases hty : attrTruthy (reset_filters disk p.extFilter st p).2.dtypesA = true
    · have hca2 : check_arguments [t] []
          (reset_filters disk p.extFilter st p).2.dtypesA.getList = ([], []) := by
        simp [check_arguments, hdty]
      have hsp : setPositional (reset_filters disk p.extFilter st p).2 [t]
          (reset_filters disk p.extFilter st p).1 =
          (storeSet (storeSet (storeSet (storeSet (reset_filters disk p.extFilter st p).1
              (reset_filters disk p.extFilter st p).2.filtersRef
              (fun fv => { fv with s0 := assignOrExtend fv.s0 [t] }))
            (reset_filters disk p.extFilter st p).2.filtersRef
            (fun fv => { fv with s1 := none }))
            (reset_filters disk p.extFilter st p).2.filtersRef
            (fun fv => { fv with s2 := assignOrExtend fv.s2 [] }))
            (reset_filters disk p.extFilter st p).2.filtersRef
            (fun fv => { fv with s3 := none }), []) := by
        unfold setPositional
        rw [hdc]
        rw [if_pos (by rfl)]
        rw [hs1]
        unfold spSlot2
        rw [if_pos hty, hca2]
        rfl
      have hfv : storeGet (setPositional (reset_filters disk p.extFilter st p).2 [t]
          (reset_filters disk p.extFilter st p).1).1
          (reset_filters disk p.extFilter st p).2.filtersRef
          = ⟨some [t], none, some [], none, none, none⟩ := by
        rw [hsp]
        rw [storeGet_set_self _ _ _ (by simpa [storeSet_length] using hrefLt),
          storeGet_set_self _ _ _ (by simpa [storeSet_length] using hrefLt),
          storeGet_set_self _ _ _ (by simpa [storeSet_length] using hrefLt),
          storeGet_set_self _ _ _ hrefLt, hbase]
        rfl
      have hres : (setPositional (reset_filters disk p.extFilter st p).2 [t]
          (reset_filters disk p.extFilter st p).1).2 = [] := by rw [hsp]
      simp only [set_filters]
      rw [if_neg (by simp), if_neg (by simp), if_neg (by simp [hres])]
      refine Exists.intro _ (And.intro rfl ?_)
      unfold postReset
      rw [(updateAttrs_fields _).1]
      rw [hfv, hdc, hss, applying_filters_eq_filter]
      exact List.filter_congr (fun r _ => by
        simp [afPred, afPred0, afPred1, afPred2, afPred3, afPred4, afPred5, truthySlot])
    · have hsp : setPositional (reset_filters disk p.extFilter st p).2 [t]
          (reset_filters disk p.extFilter st p).1 =
          (storeSet (storeSet (storeSet (storeSet (reset_filters disk p.extFilter st p).1
              (reset_filters disk p.extFilter st p).2.filtersRef
              (fun fv => { fv with s0 := assignOrExtend fv.s0 [t] }))
            (reset_filters disk p.extFilter st p).2.filtersRef
            (fun fv => { fv with s1 := none }))
            (reset_filters disk p.extFilter st p).2.filtersRef
            (fun fv => { fv with s2 := none }))
            (reset_filters disk p.extFilter st p).2.filtersRef
            (fun fv => { fv with s3 := none }), []) := by
        unfold setPositional
        rw [hdc]
        rw [if_pos (by rfl)]
        rw [hs1]
        unfold spSlot2
        rw [if_neg hty]
        rfl
      have hfv : storeGet (setPositional (reset_filters disk p.extFilter st p).2 [t]
          (reset_filters disk p.extFilter st p).1).1
          (reset_filters disk p.extFilter st p).2.filtersRef
          = ⟨some [t], none, none, none, none, none⟩ := by
        rw [hsp]
        rw [storeGet_set_self _ _ _ (by simpa [storeSet_length] using hrefLt),
          storeGet_set_self _ _ _ (by simpa [storeSet_length] using hrefLt),
          storeGet_set_self _ _ _ (by simpa [storeSet_length] using hrefLt),
          storeGet_set_self _ _ _ hrefLt, hbase]
        rfl
      have hres : (setPositional (reset_filters disk p.extFilter st p).2 [t]
          (reset_filters disk p.extFilter st p).1).2 = [] := by rw [hsp]
      simp only [set_filters]
      rw [if_neg (by simp), if_neg (by simp), if_neg (by simp [hres])]
      refine Exists.intro _ (And.intro rfl ?_)
      unfold postReset
      rw [(updateAttrs_fields _).1]
      rw [hfv, hdc, hss, applying_filters_eq_filter]
      exact List.filter_congr (fun r _ => by
        simp [afPred, afPred0, afPred1, afPred2, afPred3, afPred4, afPred5, truthySlot])

/-- Witness for C3 at the spec's scenario: subjects `{A, B}`; `"Z"` matches no
vocabulary and exits the process with a message naming the input, `"A"`
narrows the table to `Subject == "A"`. -/
theorem set_filters_validation_behavior_witness :
    (("Z" : String) ∈ ["Z"] ∧
     "Z" ∉ (postReset demoDisk demoSt demoPrj).subjectsA.getList ∧
     "Z" ∉ (postReset demoDisk demoSt demoPrj).sessionsA.getList ∧
     "Z" ∉ (postReset demoDisk demoSt demoPrj).dtypesA.getList ∧
     "Z" ∉ (postReset demoDisk demoSt demoPrj).pipelinesA.getList ∧
     "Z" ∉ (postReset demoDisk demoSt demoPrj).stepsA.getList ∧
     "Z" ∉ (postReset demoDisk demoSt demoPrj).resultsA.getList ∧
     (set_filters demoDisk ["Z"] [] demoSt demoPrj).2
       = .error (.processExit ("Wrong filter input:" ++ toString ["Z"]))) ∧
    ((postReset demoDisk demoSt demoPrj).dcIdx = 0 ∧
     (postReset demoDisk demoSt demoPrj).singleSession = true ∧
     "A" ∈ (postReset demoDisk demoSt demoPrj).subjectsA.getList ∧
     "A" ∉ (postReset demoDisk demoSt demoPrj).dtypesA.getList ∧
     ∃ p2, (set_filters demoDisk ["A"] [] demoSt demoPrj).2 = .ok p2 ∧
       p2.dfRows = (postReset demoDisk demoSt demoPrj).dfRows.filter
         (fun r => memIsin (Row.subject 0 r) ["A"])) :=
  ⟨⟨by decide, by decide, by decide, by decide, by decide, by decide, by decide,
    set_filters_validation_behavior.1 demoDisk demoSt demoPrj ["Z"] "Z" (by decide)
      (by decide) (by decide) (by decide) (by decide) (by decide) (by decide)⟩,
   by decide, by decide, by decide, by decide,
   set_filters_validation_behavior.2 demoDisk demoSt demoPrj "A" (by decide) (by decide)
     (by decide) (by decide)⟩

/-! ## Scan determinism (C8) -/

theorem lexLe_total : ∀ as bs : List Char, lexLe as bs = true ∨ lexLe bs as = true := by
  intro as
  induction as with
  | nil => intro bs; left; rfl
  | cons a as ih =>
    intro bs
    cases bs with
    | nil => right; rfl
    | cons b bs =>
      rcases lt_trichotomy a b with hab | hab | hab
      · left; simp [lexLe, hab]
      · subst hab
        rcases ih bs with h | h
        · left; simp [lexLe, lt_irrefl, h]
        · right; simp [lexLe, lt_irrefl, h]
      · right; simp [lexLe, hab]

theorem lexLe_trans : ∀ as bs cs : List Char,
    lexLe as bs = true → lexLe bs cs = true → lexLe as cs = true := by
  intro as
  induction as with
  | nil => intro bs cs _ _; rfl
  | cons a as ih =>
    intro bs cs h1 h2
    cases bs with
    | nil => simp [lexLe] at h1
    | cons b bs =>
      cases cs with
      | nil => simp [lexLe] at h2
      | cons c cs =>
        rcases lt_trichotomy a b with hab | hab | hab <;>
          rcases lt_trichotomy b c with hbc | hbc | hbc
        · simp [lexLe, lt_trans hab hbc]
        · subst hbc; simp [lexLe, hab]
        · rcases lt_trichotomy a c with hac | hac | hac
          · simp [lexLe, hac]
          · subst hac
            simp [lexLe, asymm hab, hab] at h2
          · simp [lexLe, hbc, asymm hbc] at h2
        · subst hab; simp [lexLe, hbc]
        · subst hab; subst hbc
          simp [lexLe, lt_self_iff_false] at h1 h2 ⊢
          exact ih bs cs h1 h2
        · subst hab
          simp [lexLe, hbc, asymm hbc] at h2
        · simp [lexLe, asymm hab, hab] at h1
        · subst hbc
          simp [lexLe, asymm hab, hab] at h1
        · simp [lexLe, asymm hab, hab] at h1

theorem lexLe_antisymm : ∀ as bs : List Char,
    lexLe as bs = true → lexLe bs as = true → as = bs := by
  intro as
  induction as with
  | nil =>
    intro bs _ h2
    cases bs with
    | nil => rfl
    | cons b bs => simp [lexLe] at h2
  | cons a as ih =>
    intro bs h1 h2
    cases bs with
    | nil => simp [lexLe] at h1
    | cons b bs =>
      rcases lt_trichotomy a b with hab | hab | hab
      · simp [lexLe, hab, asymm hab] at h2
      · subst hab
        simp only [lexLe, lt_irrefl, if_false] at h1 h2
        rw [ih bs h1 h2]
      · simp [lexLe, hab, asymm hab] at h1

theorem perm_isEmpty {α : Type} {l1 l2 : List α} (h : l1.Perm l2) :
    l1.isEmpty = l2.isEmpty := by
  have hl := h.length_eq
  cases l1 <;> cases l2 <;> simp_all

theorem maxCompLen_perm {l1 l2 : List Row} (h : l1.Perm l2) :
    maxCompLen l1 = maxCompLen l2 := by
  induction h with
  | nil => rfl
  | cons x h ih => simp only [maxCompLen, List.foldr] at ih ⊢; rw [ih]
  | swap x y l => simp only [maxCompLen, List.foldr]; omega
  | trans h1 h2 ih1 ih2 => exact ih1.trans ih2

theorem sortByAbspath_perm_eq (l1 l2 : List Row) (hp : l1.Perm l2)
    (hnd : (l1.map Row.abspath).Nodup) :
    sortByAbspath l1 = sortByAbspath l2 := by
  haveI hT : IsTotal Row rowLe := ⟨fun a b => lexLe_total a.abspath.data b.abspath.data⟩
  haveI hR : IsTrans Row rowLe :=
    ⟨fun a b c h1 h2 => lexLe_trans a.abspath.data b.abspath.data c.abspath.data h1 h2⟩
  haveI hA : IsAntisymm Row (fun a b : Row => rowLe a b ∧ a.abspath ≠ b.abspath) := by
    refine ⟨fun a b h1 h2 => ?_⟩
    have hdata : a.abspath.data = b.abspath.data := lexLe_antisymm _ _ h1.1 h2.1
    exact absurd (congrArg String.mk hdata) h1.2
  have hs1 : List.Sorted rowLe (sortByAbspath l1) := List.sorted_insertionSort rowLe l1
  have hs2 : List.Sorted rowLe (sortByAbspath l2) := List.sorted_insertionSort rowLe l2
  have hp1 : (sortByAbspath l1).Perm l1 := List.perm_insertionSort rowLe l1
  have hp2 : (sortByAbspath l2).Perm l2 := List.perm_insertionSort rowLe l2
  have hps : (sortByAbspath l1).Perm (sortByAbspath l2) := hp1.trans (hp.trans hp2.symm)
  have hnd2 : (l2.map Row.abspath).Nodup := ((hp.map Row.abspath).nodup_iff).1 hnd
  have hnd1s : ((sortByAbspath l1).map Row.abspath).Nodup :=
    ((hp1.map Row.abspath).nodup_iff).2 hnd
  have hnd2s : ((sortByAbspath l2).map Row.abspath).Nodup :=
    ((hp2.map Row.abspath).nodup_iff).2 hnd2
  have key : ∀ s : List Row, List.Sorted rowLe s → (s.map Row.abspath).Nodup →
      List.Pairwise (fun a b : Row => rowLe a b ∧ a.abspath ≠ b.abspath) s := by
    intro s hs hn
    have hne : List.Pairwise (fun a b : Row => a.abspath ≠ b.abspath) s :=
      List.pairwise_map.1 hn
    exact hs.and hne
  exact List.eq_of_perm_of_sorted hps (key _ hs1 hnd1s) (key _ hs2 hnd2s)

theorem parseEntries_perm (e1 e2 : List FileEntry) (idx : Nat) (hp : e1.Perm e2)
    (hnd : (e1.map FileEntry.abspath).Nodup) :
    parseEntries e1 idx = parseEntries e2 idx := by
  have hrp : (e1.map entryRow).Perm (e2.map entryRow) := hp.map entryRow
  have hmax : maxCompLen (e1.map entryRow) = maxCompLen (e2.map entryRow) :=
    maxCompLen_perm hrp
  have hie : (e1.map entryRow).isEmpty = (e2.map entryRow).isEmpty := perm_isEmpty hrp
  have hmapabs : (e1.map entryRow).map Row.abspath = e1.map FileEntry.abspath := by
    rw [List.map_map]; rfl
  have hsort : sortByAbspath (e1.map entryRow) = sortByAbspath (e2.map entryRow) :=
    sortByAbspath_perm_eq _ _ hrp (by rw [hmapabs]; exact hnd)
  have hnum : numColumns (e1.map entryRow) = numColumns (e2.map entryRow) := by
    unfold numColumns
    rw [hmax, hie]
  simp only [parseEntries]
  rw [hnum, hmax, hie, hsort]

/-- Claim C8: the scan is a deterministic function of the tree contents —
for any two filesystem enumerations of the same set of files (same records,
any order; absolute paths unique), the scan produces identical tables (same
rows, same values, same path-sorted order) and the same session-mode and
empty-project inference.  Scanning an unchanged tree twice is the special
case of the identity permutation. -/
theorem scan_deterministic_under_enumeration (e1 e2 : List FileEntry) (idx : Nat)
    (dsType : List String) (ext : Option (List String)) (hp : e1.Perm e2)
    (hnd : (e1.map FileEntry.abspath).Nodup) :
    scanEntries e1 idx dsType ext = scanEntries e2 idx dsType ext := by
  unfold scanEntries
  rw [parseEntries_perm e1 e2 idx hp hnd]

/-- Witness for C8: the same two files enumerated in both orders. -/
theorem scan_deterministic_under_enumeration_witness :
    permEntries1.Perm permEntries2 ∧
    (permEntries1.map FileEntry.abspath).Nodup ∧
    scanEntries permEntries1 0 demoDsType (some [".nii"])
      = scanEntries permEntries2 0 demoDsType (some [".nii"]) :=
  ⟨by decide, by decide,
   scan_deterministic_under_enumeration permEntries1 permEntries2 0 demoDsType
     (some [".nii"]) (by decide) (by decide)⟩

/-! ## A token matching several vocabularies (C10) -/

/-- Claim C10: every vocabulary stage of `set_filters` scans the *full*
original argument tuple, not the shrinking residual list.  A single positional
token that is both a subject name and a datatype name is therefore added to
both slot 0 and slot 2 in one call; the duplicate match is removed from the
residuals only once (the second stage's guarded `remove` finds nothing), and
the call succeeds with no invalid-filter error. -/
theorem set_filters_multi_vocabulary_token (disk : Disk) (st : Store) (p : Prj) (t : String)
    (hdc : (postReset disk st p).dcIdx = 0)
    (hms : (postReset disk st p).singleSession = false)
    (hsub : t ∈ (postReset disk st p).subjectsA.getList)
    (hses : t ∉ (postReset disk st p).sessionsA.getList)
    (hdty : t ∈ (postReset disk st p).dtypesA.getList) :
    ∃ p2, (set_filters disk [t] [] st p).2 = .ok p2 ∧
      storeGet (set_filters disk [t] [] st p).1 (postReset disk st p).filtersRef
        = ⟨some [t], some [], some [t], none, none, none⟩ := by
  unfold postReset at hdc hms hsub hses hdty ⊢
  have htr := attrTruthy_of_mem _ _ hsub
  have htyr := attrTruthy_of_mem _ _ hdty
  have hca1 : check_arguments [t] [t]
      (reset_filters disk p.extFilter st p).2.subjectsA.getList = ([t], []) := by
    simp [check_arguments, hsub]
  have hcaS : check_arguments [t] []
      (reset_filters disk p.extFilter st p).2.sessionsA.getList = ([], []) := by
    simp [check_arguments, hses]
  have hcaD : check_arguments [t] []
      (reset_filters disk p.extFilter st p).2.dtypesA.getList = ([t], []) := by
    simp [check_arguments, hdty]
  have hs1 : spStage1 (reset_filters disk p.extFilter st p).2 [t]
      (reset_filters disk p.extFilter st p).1 =
      (storeSet (storeSet (reset_filters disk p.extFilter st p).1
          (reset_filters disk p.extFilter st p).2.filtersRef
          (fun fv => { fv with s0 := assignOrExtend fv.s0 [t] }))
        (reset_filters disk p.extFilter st p).2.filtersRef
        (fun fv => { fv with s1 := assignOrExtend fv.s1 [] }), []) := by
    unfold spStage1
    rw [if_pos htr, hca1, hms]
    simp only [hcaS]
    rfl
  have hsp : setPositional (reset_filters disk p.extFilter st p).2 [t]
      (reset_filters disk p.extFilter st p).1 =
      (storeSet (storeSet (storeSet (storeSet (reset_filters disk p.extFilter st p).1
          (reset_filters disk p.extFilter st p).2.filtersRef
          (fun fv => { fv with s0 := assignOrExtend fv.s0 [t] }))
        (reset_filters disk p.extFilter st p).2.filtersRef
        (fun fv => { fv with s1 := assignOrExtend fv.s1 [] }))
        (reset_filters disk p.extFilter st p).2.filtersRef
        (fun fv => { fv with s2 := assignOrExtend fv.s2 [t] }))
        (reset_filters disk p.extFilter st p).2.filtersRef
        (fun fv => { fv with s3 := none }), []) := by
    unfold setPositional
    rw [hdc]
    rw [if_pos (by rfl)]
    rw [hs1]
    unfold spSlot2
    rw [if_pos htyr]
    simp only [hcaD]
    rfl
  have hrefLt : (reset_filters disk p.extFilter st p).2.filtersRef
      < (reset_filters disk p.extFilter st p).1.length := by
    rw [reset_filters_ref, reset_filters_store]
    simp
  have hbase : storeGet (reset_filters disk p.extFilter st p).1
      (reset_filters disk p.extFilter st p).2.filtersRef = FilterVec.empty := by
    rw [reset_filters_ref, reset_filters_store]
    exact storeGet_append_self st FilterVec.empty
  have hfv : storeGet (setPositional (reset_filters disk p.extFilter st p).2 [t]
      (reset_filters disk p.extFilter st p).1).1
      (reset_filters disk p.extFilter st p).2.filtersRef
      = ⟨some [t], some [], some [t], none, none, none⟩ := by
    rw [hsp]
    rw [storeGet_set_self _ _ _ (by simpa [storeSet_length] using hrefLt),
      storeGet_set_self _ _ _ (by simpa [storeSet_length] using hrefLt),
      storeGet_set_self _ _ _ (by simpa [storeSet_length] using hrefLt),
      storeGet_set_self _ _ _ hrefLt, hbase]
    rfl
  have hres : (setPositional (reset_filters disk p.extFilter st p).2 [t]
      (reset_filters disk p.extFilter st p).1).2 = [] := by rw [hsp]
  simp only [set_filters]
  rw [if_neg (by simp), if_neg (by simp), if_neg (by simp [hres])]
  exact Exists.intro _ (And.intro rfl hfv)

/-- Witness for C10: on `multiDisk` the string `"X"` is both a subject and a
datatype name; one call files it in both slots and succeeds. -/
theorem set_filters_multi_vocabulary_token_witness :
    ((postReset multiDisk multiSt multiPrj).dcIdx = 0 ∧
     (postReset multiDisk multiSt multiPrj).singleSession = false ∧
     "X" ∈ (postReset multiDisk multiSt multiPrj).subjectsA.getList ∧
     "X" ∉ (postReset multiDisk multiSt multiPrj).sessionsA.getList ∧
     "X" ∈ (postReset multiDisk multiSt multiPrj).dtypesA.getList) ∧
    (∃ p2, (set_filters multiDisk ["X"] [] multiSt multiPrj).2 = .ok p2 ∧
      storeGet (set_filters multiDisk ["X"] [] multiSt multiPrj).1
        (postReset multiDisk multiSt multiPrj).filtersRef
        = ⟨some ["X"], some [], some ["X"], none, none, none⟩) :=
  ⟨⟨by decide, by decide, by decide, by decide, by decide⟩,
   set_filters_multi_vocabulary_token multiDisk multiSt multiPrj "X" (by decide)
     (by decide) (by decide) (by decide) (by decide)⟩

end Pynit
